import Mathlib

/-!
# Verification of the Mines calculator bot (`bot.py`)

A shallow embedding of the bot's core logic:

* `validate_url`, built on a model of CPython's `urllib.parse.urlsplit`
  scheme/netloc extraction (the only parts `validate_url` consults);
* the command handlers `mines_command`, `mines_simple_command` and the
  global `error_handler`, modelled as functions from an oracle that
  assigns an outcome (success / `BadRequest` / other exception) to each
  successive `reply_text` call, to the resulting trace of send attempts
  together with whether an exception propagates out of the handler;
* the module-level startup validation of `BOT_TOKEN` and `WEBAPP_URL`.
-/

namespace MinesBot

/-! ## Buttons and replies -/

/-- An inline keyboard button, in the two variants the bot emits:
`InlineKeyboardButton(label, url=...)` (a plain link button) and
`InlineKeyboardButton(label, web_app=WebAppInfo(url=...))` (an embedded
web-app button). -/
inductive Button where
  | link (label : String) (url : String)
  | webApp (label : String) (url : String)
  deriving DecidableEq, Repr

/-- The url carried by a button, in either variant. -/
def Button.url : Button → String
  | .link _ u => u
  | .webApp _ u => u

/-- Whether a button is the embedded web-app variant. -/
def Button.isWebApp : Button → Bool
  | .link _ _ => false
  | .webApp _ _ => true

/-- One outbound message as passed to `reply_text`: body text, the inline
keyboard (a list of button rows; `[]` when no `reply_markup` is passed) and
the optional `parse_mode`. -/
structure Reply where
  text : String
  rows : List (List Button)
  parseMode : Option String
  deriving DecidableEq, Repr

/-- All buttons of a reply, across its rows. -/
def Reply.buttons (r : Reply) : List Button := r.rows.flatten

/-! ## Send outcomes and handler runs

Every `await update.message.reply_text(...)` call either succeeds, raises
`telegram.error.BadRequest` (the `PlatformRejection` of the spec), or raises
some other `Exception` (the spec's `UnexpectedFailure`).  A handler run is
driven by an oracle giving the outcome of the n-th send attempt. -/

/-- Outcome of one send attempt. -/
inductive SendOutcome where
  | success
  | badRequest
  | otherError
  deriving DecidableEq, Repr

/-- `true` when the outcome is an exception (either kind). -/
def sendFails : SendOutcome → Bool
  | .success => false
  | .badRequest => true
  | .otherError => true

/-- The observable result of one handler invocation: the sequence of send
attempts actually made (each with the reply passed and the outcome the
transport returned), and whether an exception escaped the handler to the
dispatcher (`raised = true`) or the handler returned normally. -/
structure HandlerRun where
  attempts : List (Reply × SendOutcome)
  raised : Bool
  deriving DecidableEq, Repr

/-! ## The replies built by `bot.py` -/

/-- The two-row rich reply of `mines_command` (lines 50-73): row 0 a link
button, row 1 a web-app button, both at the configured URL. -/
def richReply (url : String) : Reply :=
  { text := "🎮 *Mines Multiplier Calculator*\n\n" ++
      "Calculate your potential winnings for Mines game!\n" ++
      "• Supports Stake and Jacks casinos\n" ++
      "• Enter mines count (1-24)\n" ++
      "• Enter tiles clicked (1-24)\n" ++
      "• Enter your bet amount\n\n" ++
      "Choose how to open the calculator:"
    rows := [[Button.link "🎯 Open Mines Calculator" url],
             [Button.webApp "📱 Open as Web App" url]]
    parseMode := some "Markdown" }

/-- The single-row link-only fallback reply of `mines_command`
(lines 80-94), also the reply built by `mines_simple_command`
(lines 111-125): the texts and keyboards coincide in the source. -/
def simpleLinkReply (url : String) : Reply :=
  { text := "🎮 *Mines Multiplier Calculator*\n\n" ++
      "Calculate your potential winnings for Mines game!\n" ++
      "Click the button below to open the calculator:"
    rows := [[Button.link "🎯 Open Mines Calculator" url]]
    parseMode := some "Markdown" }

/-- The text-only reply carrying the literal URL (lines 97-101 and
130-134): no buttons, body ends with the configured URL. -/
def literalUrlReply (url : String) : Reply :=
  { text := "🎮 *Mines Multiplier Calculator*\n\n" ++
      "Open the calculator at: " ++ url
    rows := []
    parseMode := some "Markdown" }

/-- The generic error reply of `mines_command` (lines 104-106): plain text,
no buttons, no parse mode. -/
def genericErrorReply : Reply :=
  { text := "An unexpected error occurred. Please try again later."
    rows := []
    parseMode := none }

/-- The apology reply of the global `error_handler` (lines 172-174). -/
def apologyReply : Reply :=
  { text := "Sorry, an error occurred while processing your request. Please try again later."
    rows := []
    parseMode := none }

/-! ## The handlers -/

/-- `mines_command` (lines 46-106).  The outer `try` sends the rich reply.
`except BadRequest` sends the link-only fallback inside an inner `try`; in
the inner `except Exception` the literal-URL reply is sent *outside* any
`try`, so a failure of this third send propagates out of the handler (a
`raise` inside an `except` clause is not caught by the enclosing `try`).
`except Exception` on the outer `try` likewise sends the generic error
reply unguarded. -/
def mines_command (url : String) (oracle : Nat → SendOutcome) : HandlerRun :=
  match oracle 0 with
  | .success =>
      { attempts := [(richReply url, .success)], raised := false }
  | .badRequest =>
      match oracle 1 with
      | .success =>
          { attempts := [(richReply url, .badRequest),
                         (simpleLinkReply url, .success)]
            raised := false }
      | .badRequest =>
          { attempts := [(richReply url, .badRequest),
                         (simpleLinkReply url, .badRequest),
                         (literalUrlReply url, oracle 2)]
            raised := sendFails (oracle 2) }
      | .otherError =>
          { attempts := [(richReply url, .badRequest),
                         (simpleLinkReply url, .otherError),
                         (literalUrlReply url, oracle 2)]
            raised := sendFails (oracle 2) }
  | .otherError =>
      { attempts := [(richReply url, .otherError),
                     (genericErrorReply, oracle 1)]
        raised := sendFails (oracle 1) }

/-- `mines_simple_command` (lines 108-134).  The `try` sends the single
link-button reply; `except Exception` logs and then sends the literal-URL
reply outside any `try`, so a failure of that fallback propagates. -/
def mines_simple_command (url : String) (oracle : Nat → SendOutcome) : HandlerRun :=
  match oracle 0 with
  | .success =>
      { attempts := [(simpleLinkReply url, .success)], raised := false }
  | .badRequest =>
      { attempts := [(simpleLinkReply url, .badRequest),
                     (literalUrlReply url, oracle 1)]
        raised := sendFails (oracle 1) }
  | .otherError =>
      { attempts := [(simpleLinkReply url, .otherError),
                     (literalUrlReply url, oracle 1)]
        raised := sendFails (oracle 1) }

/-- `error_handler` (lines 165-176).  `hasMessage` models the guard
`isinstance(update, Update) and update.message`; when it holds the apology
reply is attempted inside a `try` whose `except Exception` only logs, so
the handler always returns normally. -/
def error_handler (hasMessage : Bool) (oracle : Nat → SendOutcome) : HandlerRun :=
  if hasMessage then
    { attempts := [(apologyReply, oracle 0)], raised := false }
  else
    { attempts := [], raised := false }

/-! ## URL validation

`validate_url` (lines 19-25) calls `urllib.parse.urlparse` and checks
`all([result.scheme, result.netloc]) and result.scheme in ['http', 'https']`,
returning `False` from the surrounding `except` if parsing raises.  We
embed the scheme/netloc extraction of CPython's `urlsplit`, on which
`urlparse` relies for those two fields: leading C0-control/space characters
are stripped and tab/CR/LF removed everywhere; a scheme is split off before
the first `:` when the first character is an ASCII letter and every
character before the `:` is a scheme character; a netloc follows a leading
`//` and runs up to the first `/`, `?` or `#`; a netloc containing `[`
without `]` (or vice versa) raises `ValueError`, modelled as `none`. -/

/-- Characters allowed in a scheme (`scheme_chars` in `urllib.parse`). -/
def isSchemeChar (c : Char) : Bool :=
  c.isAlphanum || c == '+' || c == '-' || c == '.'

/-- C0 control characters and space, stripped from the front of the url. -/
def isC0ControlOrSpace (c : Char) : Bool := c.toNat ≤ 0x20

/-- Tab, CR and LF, removed from the whole url before parsing. -/
def isUnsafeUrlChar (c : Char) : Bool := c == '\t' || c == '\r' || c == '\n'

/-- Scheme extraction of `urlsplit`: returns `(scheme, rest)` where
`scheme` is lower-cased and `rest` is the remainder after the colon, or
`([], input)` when no scheme is recognised. -/
def parseScheme (cs : List Char) : List Char × List Char :=
  let pre := cs.takeWhile (fun c => !(c == ':'))
  let post := cs.dropWhile (fun c => !(c == ':'))
  match post, pre with
  | _ :: rest, c0 :: _ =>
      if c0.isAlpha && pre.all isSchemeChar then
        (pre.map Char.toLower, rest)
      else ([], cs)
  | _, _ => ([], cs)

/-- The `(scheme, netloc)` fields of `urlsplit(url)`, with `none` for a
`ValueError` (mismatched square brackets in the netloc). -/
def urlsplitSN (url : String) : Option (String × String) :=
  let cs := (url.toList.dropWhile isC0ControlOrSpace).filter
    (fun c => !isUnsafeUrlChar c)
  let sr := parseScheme cs
  match sr.2 with
  | '/' :: '/' :: r =>
      let netloc := r.takeWhile (fun c => !(c == '/' || c == '?' || c == '#'))
      if (netloc.contains '[' && !netloc.contains ']') ||
         (netloc.contains ']' && !netloc.contains '[') then
        none
      else
        some (String.mk sr.1, String.mk netloc)
  | _ => some (String.mk sr.1, "")

/-- `validate_url` (lines 19-25): true iff parsing succeeds, both scheme
and netloc are truthy (non-empty), and the scheme is `http` or `https`;
false when parsing raises. -/
def validate_url (url : String) : Bool :=
  match urlsplitSN url with
  | none => false
  | some (scheme, netloc) =>
      (!(scheme == "") && !(netloc == "")) &&
      (scheme == "http" || scheme == "https")

/-! ## Startup validation -/

/-- Python truthiness of an optional environment-variable string:
falsy when absent or empty. -/
def pyTruthy : Option String → Bool
  | none => false
  | some s => !(s == "")

/-- Result of module import plus `main()`: either the process exited with
a status code during the module-level checks, or it reached `main()`,
registered the four command handlers and started polling the transport. -/
inductive StartupResult where
  | exited (code : Nat)
  | running (registeredHandlers : List String) (transportCalls : Nat)
  deriving DecidableEq, Repr

/-- The command handlers `main()` registers, in registration order. -/
def handlerNames : List String := ["start", "mines", "mines_simple", "help"]

/-- The module-level startup checks (lines 28-38) followed by `main()`
(lines 178-194): `exit(1)` when `BOT_TOKEN` is falsy, when `WEBAPP_URL`
is falsy, or when `validate_url(WEBAPP_URL)` is false; otherwise the
handlers are registered and polling starts (one connection to the
transport). -/
def startup (botToken webappUrl : Option String) : StartupResult :=
  if !pyTruthy botToken then .exited 1
  else if !pyTruthy webappUrl then .exited 1
  else if !validate_url (webappUrl.getD "") then .exited 1
  else .running handlerNames 1

/-- The handlers registered by a startup outcome: none when the process
exited during the module-level checks. -/
def StartupResult.handlers : StartupResult → List String
  | .exited _ => []
  | .running hs _ => hs

/-- Outbound transport calls made by a startup outcome: none when the
process exited during the module-level checks. -/
def StartupResult.transport : StartupResult → Nat
  | .exited _ => 0
  | .running _ n => n

/-! ## Helper lemmas: the four replies are pairwise distinguishable -/

theorem richReply_ne_simple (url : String) : richReply url ≠ simpleLinkReply url := by
  intro h
  have h2 := congrArg (fun r => r.rows.length) h
  simp [richReply, simpleLinkReply] at h2

theorem richReply_ne_literal (url : String) : richReply url ≠ literalUrlReply url := by
  intro h
  have h2 := congrArg (fun r => r.rows.length) h
  simp [richReply, literalUrlReply] at h2

theorem generic_ne_simple (url : String) : genericErrorReply ≠ simpleLinkReply url := by
  intro h
  have h2 := congrArg (fun r => r.rows.length) h
  simp [genericErrorReply, simpleLinkReply] at h2

theorem generic_ne_literal (url : String) : genericErrorReply ≠ literalUrlReply url := by
  intro h
  have h2 := congrArg Reply.parseMode h
  simp [genericErrorReply, literalUrlReply] at h2

/-! ## Claim theorems -/

/-- C2: when the transport accepts the first send of the rich command, the
delivered reply is the rich reply, whose keyboard has exactly 2 rows, row 0
the link-button variant and row 1 the web-app variant, both at the
configured URL, and the handler returns normally. -/
theorem mines_command_success_two_rows (url : String) (oracle : Nat → SendOutcome)
    (h : oracle 0 = SendOutcome.success) :
    (mines_command url oracle).attempts = [(richReply url, SendOutcome.success)] ∧
    (mines_command url oracle).raised = false ∧
    (richReply url).rows.length = 2 ∧
    (richReply url).rows = [[Button.link "🎯 Open Mines Calculator" url],
                            [Button.webApp "📱 Open as Web App" url]] := by
  refine ⟨?_, ?_, rfl, rfl⟩ <;> simp [mines_command, h]

theorem mines_command_success_two_rows_witness :
    ((fun _ => SendOutcome.success) 0 = SendOutcome.success) ∧
    ((mines_command "https://calc.example.com/mines" (fun _ => SendOutcome.success)).attempts
       = [(richReply "https://calc.example.com/mines", SendOutcome.success)]) :=
  ⟨rfl, (mines_command_success_two_rows "https://calc.example.com/mines"
    (fun _ => SendOutcome.success) rfl).1⟩

/-- C3: when the first send of the rich command raises `BadRequest`, the
second attempt sends the single-row link-only reply, which contains one
link button at the configured URL and no web-app button; and when that
second attempt succeeds, the run consists of exactly those two attempts
(one subsequent attempt) and the handler returns normally. -/
theorem mines_command_badRequest_fallback (url : String) (oracle : Nat → SendOutcome)
    (h : oracle 0 = SendOutcome.badRequest) :
    (mines_command url oracle).attempts[1]? = some (simpleLinkReply url, oracle 1) ∧
    (simpleLinkReply url).rows = [[Button.link "🎯 Open Mines Calculator" url]] ∧
    (∀ b ∈ (simpleLinkReply url).buttons, b.isWebApp = false) ∧
    (oracle 1 = SendOutcome.success →
      (mines_command url oracle).attempts.length = 2 ∧
      (mines_command url oracle).raised = false) := by
  refine ⟨?_, rfl, ?_, ?_⟩
  · cases h1 : oracle 1 <;> simp [mines_command, h, h1]
  · intro b hb
    simp [Reply.buttons, simpleLinkReply] at hb
    subst hb
    rfl
  · intro h1
    constructor <;> simp [mines_command, h, h1]

theorem mines_command_badRequest_fallback_witness :
    ((fun n => if n == 0 then SendOutcome.badRequest else SendOutcome.success) 0
       = SendOutcome.badRequest) ∧
    ((mines_command "https://calc.example.com/mines"
        (fun n => if n == 0 then SendOutcome.badRequest else SendOutcome.success)).attempts[1]?
       = some (simpleLinkReply "https://calc.example.com/mines", SendOutcome.success)) :=
  ⟨rfl, (mines_command_badRequest_fallback "https://calc.example.com/mines"
    (fun n => if n == 0 then SendOutcome.badRequest else SendOutcome.success) rfl).1⟩

/-- C5: when the first send of the rich command fails with an exception
other than `BadRequest`, exactly one further attempt is made, sending the
generic plain-text error reply with no buttons and no parse mode, and
neither the link-only reply nor the literal-URL reply is ever attempted in
that run. -/
theorem mines_command_unexpected_generic (url : String) (oracle : Nat → SendOutcome)
    (h : oracle 0 = SendOutcome.otherError) :
    (mines_command url oracle).attempts =
      [(richReply url, SendOutcome.otherError), (genericErrorReply, oracle 1)] ∧
    genericErrorReply.rows = [] ∧
    genericErrorReply.text = "An unexpected error occurred. Please try again later." ∧
    (∀ a ∈ (mines_command url oracle).attempts,
       a.1 ≠ simpleLinkReply url ∧ a.1 ≠ literalUrlReply url) := by
  refine ⟨by simp [mines_command, h], rfl, rfl, ?_⟩
  intro a ha
  simp [mines_command, h] at ha
  rcases ha with ha | ha <;> rw [show a.1 = (a.1, a.2).1 from rfl, ha]
  · exact ⟨richReply_ne_simple url, richReply_ne_literal url⟩
  · exact ⟨generic_ne_simple url, generic_ne_literal url⟩

theorem mines_command_unexpected_generic_witness :
    ((fun _ => SendOutcome.otherError) 0 = SendOutcome.otherError) ∧
    ((mines_command "https://calc.example.com/mines" (fun _ => SendOutcome.otherError)).attempts
       = [(richReply "https://calc.example.com/mines", SendOutcome.otherError),
          (genericErrorReply, SendOutcome.otherError)]) :=
  ⟨rfl, (mines_command_unexpected_generic "https://calc.example.com/mines"
    (fun _ => SendOutcome.otherError) rfl).1⟩

/-- C6: `validate_url u` is true iff `u` parses (no `ValueError`) with a
non-empty scheme that is exactly `http` or `https` and a non-empty
netloc; and whenever parsing fails, `validate_url` returns false (the
`except` encodes failure in the boolean, nothing propagates). -/
theorem validate_url_spec (u : String) :
    (validate_url u = true ↔
      ∃ scheme netloc, urlsplitSN u = some (scheme, netloc) ∧
        scheme ≠ "" ∧ (scheme = "http" ∨ scheme = "https") ∧ netloc ≠ "") ∧
    (urlsplitSN u = none → validate_url u = false) := by
  constructor
  · unfold validate_url
    cases h : urlsplitSN u with
    | none => simp
    | some sn =>
        obtain ⟨s, n⟩ := sn
        simp only [h, Option.some.injEq, Prod.mk.injEq, Bool.and_eq_true,
          Bool.or_eq_true, beq_iff_eq, Bool.not_eq_eq_eq_not, Bool.not_true,
          beq_eq_false_iff_ne, ne_eq]
        constructor
        · rintro ⟨⟨hs, hn⟩, hsch⟩
          exact ⟨s, n, ⟨rfl, rfl⟩, hs, hsch, hn⟩
        · rintro ⟨s', n', ⟨rfl, rfl⟩, hs, hsch, hn⟩
          exact ⟨⟨hs, hn⟩, hsch⟩
  · intro h
    unfold validate_url
    rw [h]

theorem validate_url_spec_witness :
    urlsplitSN "http://[bad" = none ∧ validate_url "http://[bad" = false :=
  ⟨by decide, (validate_url_spec "http://[bad").2 (by decide)⟩

/-- C7: when the bot credential is falsy, or the target URL is falsy or
fails validation, the module-level checks exit the process with status 1,
so no command handler is registered and no outbound transport call is
made. -/
theorem startup_invalid_exits (tok url : Option String)
    (h : pyTruthy tok = false ∨ pyTruthy url = false ∨
         validate_url (url.getD "") = false) :
    startup tok url = StartupResult.exited 1 ∧
    (startup tok url).handlers = [] ∧
    (startup tok url).transport = 0 := by
  have key : startup tok url = StartupResult.exited 1 := by
    unfold startup
    rcases h with h | h | h <;> simp [h]
  exact ⟨key, by rw [key]; rfl, by rw [key]; rfl⟩

theorem startup_invalid_exits_witness :
    (pyTruthy none = false ∨ pyTruthy (some "ftp://x") = false ∨
      validate_url ((some "ftp://x").getD "") = false) ∧
    startup none (some "ftp://x") = StartupResult.exited 1 :=
  ⟨Or.inl rfl, (startup_invalid_exits none (some "ftp://x") (Or.inl rfl)).1⟩

/-- C8: every button in every reply ever passed to a send attempt by
`mines_command` or by `mines_simple_command` carries the configured URL
as its url, whatever outcomes the transport returns. -/
theorem buttons_carry_configured_url (url : String) (o1 o2 : Nat → SendOutcome) :
    (∀ a ∈ (mines_command url o1).attempts, ∀ b ∈ a.1.buttons, b.url = url) ∧
    (∀ a ∈ (mines_simple_command url o2).attempts, ∀ b ∈ a.1.buttons, b.url = url) := by
  have hrich : ∀ b ∈ (richReply url).buttons, b.url = url := by
    intro b hb
    simp [Reply.buttons, richReply] at hb
    rcases hb with hb | hb <;> subst hb <;> rfl
  have hsimple : ∀ b ∈ (simpleLinkReply url).buttons, b.url = url := by
    intro b hb
    simp [Reply.buttons, simpleLinkReply] at hb
    subst hb
    rfl
  have hlit : ∀ b ∈ (literalUrlReply url).buttons, b.url = url := by
    intro b hb
    simp [Reply.buttons, literalUrlReply] at hb
  have hgen : ∀ b ∈ genericErrorReply.buttons, b.url = url := by
    intro b hb
    simp [Reply.buttons, genericErrorReply] at hb
  constructor
  · rintro ⟨r, o⟩ ha
    cases h0 : o1 0 with
    | success =>
        simp [mines_command, h0] at ha
        obtain ⟨rfl, rfl⟩ := ha
        exact hrich
    | badRequest =>
        cases h1 : o1 1 with
        | success =>
            simp [mines_command, h0, h1] at ha
            rcases ha with ⟨rfl, rfl⟩ | ⟨rfl, rfl⟩
            · exact hrich
            · exact hsimple
        | badRequest =>
            simp [mines_command, h0, h1] at ha
            rcases ha with ⟨rfl, rfl⟩ | ⟨rfl, rfl⟩ | ⟨rfl, rfl⟩
            · exact hrich
            · exact hsimple
            · exact hlit
        | otherError =>
            simp [mines_command, h0, h1] at ha
            rcases ha with ⟨rfl, rfl⟩ | ⟨rfl, rfl⟩ | ⟨rfl, rfl⟩
            · exact hrich
            · exact hsimple
            · exact hlit
    | otherError =>
        simp [mines_command, h0] at ha
        rcases ha with ⟨rfl, rfl⟩ | ⟨rfl, rfl⟩
        · exact hrich
        · exact hgen
  · rintro ⟨r, o⟩ ha
    cases h0 : o2 0 with
    | success =>
        simp [mines_simple_command, h0] at ha
        obtain ⟨rfl, rfl⟩ := ha
        exact hsimple
    | badRequest =>
        simp [mines_simple_command, h0] at ha
        rcases ha with ⟨rfl, rfl⟩ | ⟨rfl, rfl⟩
        · exact hsimple
        · exact hlit
    | otherError =>
        simp [mines_simple_command, h0] at ha
        rcases ha with ⟨rfl, rfl⟩ | ⟨rfl, rfl⟩
        · exact hsimple
        · exact hlit

theorem buttons_carry_configured_url_witness :
    Button.url (Button.webApp "📱 Open as Web App" "https://calc.example.com/mines")
      = "https://calc.example.com/mines" :=
  (buttons_carry_configured_url "https://calc.example.com/mines"
      (fun _ => SendOutcome.success) (fun _ => SendOutcome.success)).1
    (richReply "https://calc.example.com/mines", SendOutcome.success)
    (by simp [mines_command])
    (Button.webApp "📱 Open as Web App" "https://calc.example.com/mines")
    (by simp [Reply.buttons, richReply])

/-- C9: the global `error_handler` always returns normally; when no
originating message is identified it makes no send attempt, and when one
is identified it makes exactly one best-effort attempt whose failure is
swallowed. -/
theorem error_handler_never_raises (hasMessage : Bool) (oracle : Nat → SendOutcome) :
    (error_handler hasMessage oracle).raised = false ∧
    (hasMessage = false → (error_handler hasMessage oracle).attempts = []) ∧
    (hasMessage = true →
      (error_handler hasMessage oracle).attempts = [(apologyReply, oracle 0)]) := by
  cases hasMessage <;> simp [error_handler]

theorem error_handler_never_raises_witness :
    (error_handler false (fun _ => SendOutcome.otherError)).raised = false ∧
    (error_handler false (fun _ => SendOutcome.otherError)).attempts = [] :=
  ⟨(error_handler_never_raises false (fun _ => SendOutcome.otherError)).1,
   (error_handler_never_raises false (fun _ => SendOutcome.otherError)).2.1 rfl⟩

/-- C10: when the first send of the simple command fails for any reason,
exactly one fallback attempt follows: the text-only reply with no buttons
whose body ends with the literal configured URL; that fallback send is
unguarded, so its failure makes the handler raise to the dispatcher, while
its success lets the handler return normally. -/
theorem mines_simple_fallback_unguarded (url : String) (oracle : Nat → SendOutcome)
    (h : sendFails (oracle 0) = true) :
    (mines_simple_command url oracle).attempts.length = 2 ∧
    (mines_simple_command url oracle).attempts[1]? =
      some (literalUrlReply url, oracle 1) ∧
    (literalUrlReply url).rows = [] ∧
    (∃ p, (literalUrlReply url).text = p ++ url) ∧
    (sendFails (oracle 1) = true → (mines_simple_command url oracle).raised = true) ∧
    (oracle 1 = SendOutcome.success → (mines_simple_command url oracle).raised = false) := by
  have hp : ∃ p, (literalUrlReply url).text = p ++ url :=
    ⟨"🎮 *Mines Multiplier Calculator*\n\n" ++ "Open the calculator at: ", rfl⟩
  cases h0 : oracle 0 with
  | success => rw [h0] at h; exact absurd h (by simp [sendFails])
  | badRequest =>
      refine ⟨by simp [mines_simple_command, h0], by simp [mines_simple_command, h0],
        rfl, hp, ?_, ?_⟩
      · intro h1
        simpa [mines_simple_command, h0] using h1
      · intro h1
        simp [mines_simple_command, sendFails, h0, h1]
  | otherError =>
      refine ⟨by simp [mines_simple_command, h0], by simp [mines_simple_command, h0],
        rfl, hp, ?_, ?_⟩
      · intro h1
        simpa [mines_simple_command, h0] using h1
      · intro h1
        simp [mines_simple_command, sendFails, h0, h1]

theorem mines_simple_fallback_unguarded_witness :
    (sendFails ((fun _ => SendOutcome.badRequest) 0) = true) ∧
    ((mines_simple_command "https://calc.example.com/mines"
        (fun _ => SendOutcome.badRequest)).attempts.length = 2) ∧
    ((mines_simple_command "https://calc.example.com/mines"
        (fun _ => SendOutcome.badRequest)).raised = true) :=
  ⟨rfl,
   (mines_simple_fallback_unguarded "https://calc.example.com/mines"
      (fun _ => SendOutcome.badRequest) rfl).1,
   (mines_simple_fallback_unguarded "https://calc.example.com/mines"
      (fun _ => SendOutcome.badRequest) rfl).2.2.2.2.1 rfl⟩

/-- C1 counterexample: with outcomes (`BadRequest`, other exception, other
exception) for the three successive sends, `mines_command` does not
terminate normally — the failure of the literal-URL send, made inside the
inner `except` clause without any guard, propagates out of the handler. -/
theorem mines_command_raise_example :
    (mines_command "https://calc.example.com/mines"
      (fun n => if n == 0 then SendOutcome.badRequest else SendOutcome.otherError)).raised
      = true := rfl

/-- C1 (amended): `mines_command` raises to the dispatcher exactly when a
last-resort send itself fails — the literal-URL send after the rich send
got `BadRequest` and the link-only fallback failed, or the generic error
send after the rich send failed with a non-`BadRequest` exception; in
every other case the handler terminates normally. -/
theorem mines_command_raises_iff (url : String) (oracle : Nat → SendOutcome) :
    (mines_command url oracle).raised = true ↔
      ((oracle 0 = SendOutcome.badRequest ∧ sendFails (oracle 1) = true ∧
          sendFails (oracle 2) = true) ∨
       (oracle 0 = SendOutcome.otherError ∧ sendFails (oracle 1) = true)) := by
  cases h0 : oracle 0 <;> cases h1 : oracle 1 <;> cases h2 : oracle 2 <;>
    simp [mines_command, sendFails, h0, h1, h2]

/-- C4 counterexample: with every send returning `BadRequest`, the third
(literal-URL) attempt is made and its failure is not merely logged — the
handler raises, so "the failure is only logged" fails on the code. -/
theorem mines_command_third_failure_raises :
    ((mines_command "https://mines.example.org"
        (fun _ => SendOutcome.badRequest)).attempts.length = 3) ∧
    ((mines_command "https://mines.example.org"
        (fun _ => SendOutcome.badRequest)).raised = true) :=
  ⟨rfl, rfl⟩

/-- C4 (amended): when the rich send gets `BadRequest` and the link-only
fallback send also fails, exactly one further attempt is made — the
text-only reply with no buttons whose body ends with the literal
configured URL — and if that attempt also fails, no further attempt is
made within the handler and the exception propagates to the dispatcher. -/
theorem mines_command_double_failure_literal (url : String) (oracle : Nat → SendOutcome)
    (h0 : oracle 0 = SendOutcome.badRequest) (h1 : sendFails (oracle 1) = true) :
    (mines_command url oracle).attempts.length = 3 ∧
    (mines_command url oracle).attempts[2]? = some (literalUrlReply url, oracle 2) ∧
    (literalUrlReply url).rows = [] ∧
    (∃ p, (literalUrlReply url).text = p ++ url) ∧
    (sendFails (oracle 2) = true → (mines_command url oracle).raised = true) := by
  have hp : ∃ p, (literalUrlReply url).text = p ++ url :=
    ⟨"🎮 *Mines Multiplier Calculator*\n\n" ++ "Open the calculator at: ", rfl⟩
  cases h1' : oracle 1 with
  | success => rw [h1'] at h1; exact absurd h1 (by simp [sendFails])
  | badRequest =>
      refine ⟨by simp [mines_command, h0, h1'], by simp [mines_command, h0, h1'],
        rfl, hp, ?_⟩
      intro h2
      simp [mines_command, h0, h1', h2]
  | otherError =>
      refine ⟨by simp [mines_command, h0, h1'], by simp [mines_command, h0, h1'],
        rfl, hp, ?_⟩
      intro h2
      simp [mines_command, h0, h1', h2]

theorem mines_command_double_failure_literal_witness :
    ((fun _ => SendOutcome.badRequest) 0 = SendOutcome.badRequest) ∧
    (sendFails ((fun _ => SendOutcome.badRequest) 1) = true) ∧
    ((mines_command "https://calc.example.com/mines"
        (fun _ => SendOutcome.badRequest)).attempts[2]? =
      some (literalUrlReply "https://calc.example.com/mines", SendOutcome.badRequest)) :=
  ⟨rfl, rfl,
   (mines_command_double_failure_literal "https://calc.example.com/mines"
      (fun _ => SendOutcome.badRequest) rfl rfl).2.1⟩

end MinesBot
